import Mathlib

/-!
Shallow embedding of `src/server.py` (a FastAPI proxy in front of the Seedr
remote storage service) and proofs about its asynchronous upload-job
lifecycle: the file-based status store, the background upload worker, the
job dispatcher, the status query endpoint, and the delete endpoint.
-/

/-- A JSON document, as produced by Python's `json` module.  Status records
are stored as JSON objects; object fields are an ordered association list. -/
inductive Json where
  | null : Json
  | bool : Bool → Json
  | num : Int → Json
  | str : String → Json
  | arr : List Json → Json
  | obj : List (String × Json) → Json

/-- Python truthiness of a JSON value (`if not status:` in the source):
`None`, `False`, `0`, `""`, `[]` and `{}` are falsy, everything else truthy. -/
def Json.truthy : Json → Bool
  | .null => false
  | .bool b => b
  | .num n => n != 0
  | .str s => s != ""
  | .arr xs => !xs.isEmpty
  | .obj fs => !fs.isEmpty

/-- Field lookup in a JSON object (first binding wins, as in a Python dict
built from distinct keys); `none` on non-objects and missing keys. -/
def Json.getField : Json → String → Option Json
  | .obj fields, key => go fields key
  | _, _ => none
where
  go : List (String × Json) → String → Option Json
    | [], _ => none
    | (k, v) :: rest, key => if k = key then some v else go rest key

/-- An HTTP response as built by `JSONResponse(content=..., status_code=...)`. -/
structure HttpResponse where
  status_code : Nat
  content : Json

/-- The filesystem directory backing the status store: a map from file paths
to the JSON document stored at that path (`none` = no such file). -/
def StatusDir : Type := String → Option Json

/-- The pool of staged temporary files, as a set of paths. -/
def TmpFs : Type := String → Bool

/-- `STATUS_DIR = "/tmp/upload_statuses"` in the source. -/
def STATUS_DIR : String := "/tmp/upload_statuses"

/-- The path of a job's status file:
`os.path.join(STATUS_DIR, f"{file_id}.json")`. -/
def statusPath (file_id : String) : String :=
  STATUS_DIR ++ "/" ++ file_id ++ ".json"

/-- `write_status(file_id, status_data)`: serializes `status_data` to the
job's status file, fully overwriting any previous contents. -/
def write_status (dir : StatusDir) (file_id : String) (status_data : Json) : StatusDir :=
  fun p => if p = statusPath file_id then some status_data else dir p

/-- `read_status(file_id)`: returns `None` when the status file does not
exist, otherwise the deserialized document.  Total: never raises on a
missing key. -/
def read_status (dir : StatusDir) (file_id : String) : Option Json :=
  dir (statusPath file_id)

/-- The record `{"status": "pending"}` written by `upload_file`. -/
def pendingRec : Json := .obj [("status", .str "pending")]

/-- The record `{"status": "processing"}` written by the worker. -/
def processingRec : Json := .obj [("status", .str "processing")]

/-- The record `{"status": "completed", "result": result}` written by the
worker on success. -/
def completedRec (result : Json) : Json :=
  .obj [("status", .str "completed"), ("result", result)]

/-- The record `{"status": "failed", "error": "Upload process failed."}`
written by the worker on any exception. -/
def failedRec : Json :=
  .obj [("status", .str "failed"), ("error", .str "Upload process failed.")]

/-- A record is terminal when its status is `completed` or `failed`. -/
def isTerminalRec (j : Json) : Prop :=
  j = failedRec ∨ ∃ r, j = completedRec r

/-- The records the system itself ever writes to the status store: this is
exactly the Job Record entity of the data model. -/
def isJobRecord (j : Json) : Prop :=
  j = pendingRec ∨ j = processingRec ∨ (∃ r, j = completedRec r) ∨ j = failedRec

/-- Failure-injection environment for one run of
`upload_to_seedr_in_background`: the outcome of the remote
`seedr.upload_file` call (payload or raised exception text) and whether
each of the worker's three `write_status` calls succeeds or raises. -/
structure WorkerEnv where
  uploadOutcome : Except String Json
  writeProcessingOk : Bool
  writeCompletedOk : Bool
  writeFailedOk : Bool

/-- Result of one run of the worker: final status directory, final set of
temporary files, the sequence of records successfully written to the job's
status key (in order), and whether an exception escaped the worker. -/
structure WorkerRun where
  dir : StatusDir
  fs : TmpFs
  trace : List Json
  escaped : Bool

/-- `upload_to_seedr_in_background(file_id, tmp_path)`:
```
try:
    write_status(file_id, {"status": "processing"})
    result = seedr.upload_file(tmp_path)
    write_status(file_id, {"status": "completed", "result": result})
except Exception as e:
    logger.error(...)
    write_status(file_id, {"status": "failed", "error": "Upload process failed."})
finally:
    if os.path.exists(tmp_path):
        os.remove(tmp_path)
```
A `write_status` that raises stores nothing; logging has no modelled effect.
The `finally` block always runs; an exception raised by the `except` block's
own `write_status` escapes the worker after cleanup. -/
def upload_to_seedr_in_background (env : WorkerEnv) (dir : StatusDir) (fs : TmpFs)
    (file_id tmp_path : String) : WorkerRun :=
  -- the try block: resulting directory, write trace, and whether an
  -- exception is pending when the block exits
  let tryBlock : StatusDir × List Json × Bool :=
    if env.writeProcessingOk then
      let d1 := write_status dir file_id processingRec
      match env.uploadOutcome with
      | .ok result =>
        if env.writeCompletedOk then
          (write_status d1 file_id (completedRec result),
            [processingRec, completedRec result], false)
        else
          (d1, [processingRec], true)
      | .error _ => (d1, [processingRec], true)
    else
      (dir, [], true)
  -- the except block, entered only when an exception is pending
  let afterExcept : StatusDir × List Json × Bool :=
    if tryBlock.2.2 then
      if env.writeFailedOk then
        (write_status tryBlock.1 file_id failedRec, tryBlock.2.1 ++ [failedRec], false)
      else
        (tryBlock.1, tryBlock.2.1, true)
    else
      (tryBlock.1, tryBlock.2.1, false)
  -- the finally block: remove the temp file if it exists
  { dir := afterExcept.1
    fs := fun p => if p = tmp_path then false else fs p
    trace := afterExcept.2.1
    escaped := afterExcept.2.2 }

/-- The observable steps `upload_file` performs, in order. -/
inductive DispatchEvent where
  | staged : String → DispatchEvent
  | enqueued : String → String → DispatchEvent
  | wrotePending : String → DispatchEvent
deriving DecidableEq

/-- `tmp_path = f"/tmp/{file_id}-{file.filename}"`. -/
def tmpPath (file_id filename : String) : String :=
  "/tmp/" ++ file_id ++ "-" ++ filename

/-- Result of one `POST /upload` request: final status directory, staged
temp files, queued background tasks (`job_id`/temp-path pairs, in queue
order), the ordered event log, and either the HTTP response or a raised
staging exception (propagated to the framework). -/
structure DispatchRun where
  dir : StatusDir
  fs : TmpFs
  tasks : List (String × String)
  events : List DispatchEvent
  response : Except Unit HttpResponse

/-- `upload_file(file)`:
```
file_id = str(uuid.uuid4())
tmp_path = f"/tmp/{file_id}-{file.filename}"
with open(tmp_path, "wb") as buffer:
    shutil.copyfileobj(file.file, buffer)
background_tasks.add_task(upload_to_seedr_in_background, file_id, tmp_path)
write_status(file_id, {"status": "pending"})
return JSONResponse(content={"file_id": file_id}, status_code=202)
```
The fresh `uuid4` is passed in as `file_id`; `stagingOk` is whether the
byte copy to `tmp_path` succeeds.  When staging raises, the exception
propagates: nothing later in the function runs. -/
def upload_file (stagingOk : Bool) (dir : StatusDir) (fs : TmpFs)
    (tasks : List (String × String)) (file_id filename : String) : DispatchRun :=
  let tmp_path := tmpPath file_id filename
  if stagingOk then
    { dir := write_status dir file_id pendingRec
      fs := fun p => if p = tmp_path then true else fs p
      tasks := tasks ++ [(file_id, tmp_path)]
      events := [.staged tmp_path, .enqueued file_id tmp_path, .wrotePending file_id]
      response := .ok ⟨202, .obj [("file_id", .str file_id)]⟩ }
  else
    { dir := dir, fs := fs, tasks := tasks, events := [], response := .error () }

/-- The body of the 404 response of `GET /upload/status/{file_id}`. -/
def notFoundResponse : HttpResponse :=
  ⟨404, .obj [("error", .str "File not found")]⟩

/-- `get_upload_status(file_id)`:
```
status = read_status(file_id)
if not status:
    return JSONResponse(content={"error": "File not found"}, status_code=404)
return JSONResponse(content=status, status_code=200)
```
Note `if not status:` tests Python falsiness of the value read, which is
satisfied both by `None` (missing file) and by any falsy document. -/
def get_upload_status (dir : StatusDir) (file_id : String) : HttpResponse :=
  match read_status dir file_id with
  | none => notFoundResponse
  | some status => if status.truthy then ⟨200, status⟩ else notFoundResponse

/-- Remote delete operations of the Seedr collaborator interface. -/
inductive RemoteCall where
  | deleteFile : String → RemoteCall
  | deleteFolder : String → RemoteCall
deriving DecidableEq

/-- `delete_item(item_id, item_type="file")`:
```
if item_type == "file":
    result = seedr.delete_file(item_id)
elif item_type == "folder":
    result = seedr.delete_folder(item_id)
else:
    return JSONResponse(content={"error": "Invalid item_type. Must be 'file' or 'folder'."}, status_code=400)
return JSONResponse(content=result, status_code=200)
```
`remote` gives each remote call's returned payload; the result is the list
of remote calls made (in order) together with the HTTP response. -/
def delete_item (remote : RemoteCall → Json) (item_id : String)
    (item_type : String := "file") : List RemoteCall × HttpResponse :=
  if item_type = "file" then
    ([.deleteFile item_id], ⟨200, remote (.deleteFile item_id)⟩)
  else if item_type = "folder" then
    ([.deleteFolder item_id], ⟨200, remote (.deleteFolder item_id)⟩)
  else
    ([], ⟨400, .obj [("error", .str "Invalid item_type. Must be 'file' or 'folder'.")]⟩)

/-- The empty status directory. -/
def emptyDir : StatusDir := fun _ => none

/-- The empty pool of temporary files. -/
def emptyFs : TmpFs := fun _ => false

/-! ## Theorems -/

/-- Helper: every record the system itself writes is Python-truthy, since
each is a non-empty JSON object. -/
theorem isJobRecord_truthy {j : Json} (h : isJobRecord j) : j.truthy = true := by
  rcases h with h | h | ⟨r, h⟩ | h <;> subst h <;> rfl

/-- Claim C8: writing a record to the status store and then reading the same
job id returns exactly that record; the write fully overwrites any prior
value for the key, whatever the prior contents of the store were. -/
theorem write_then_read_roundtrip (dir : StatusDir) (file_id : String) (record : Json) :
    read_status (write_status dir file_id record) file_id = some record := by
  simp [read_status, write_status]

/-- Claim C9: `delete_item` with `item_type="file"` invokes only the remote
`delete_file` call, with `"folder"` only `delete_folder`, defaults to
`"file"` when the parameter is omitted, and on any other value returns a
400 response with a descriptive message without making any remote call. -/
theorem delete_item_dispatch (remote : RemoteCall → Json) (item_id : String) :
    delete_item remote item_id "file"
      = ([.deleteFile item_id], ⟨200, remote (.deleteFile item_id)⟩)
    ∧ delete_item remote item_id "folder"
      = ([.deleteFolder item_id], ⟨200, remote (.deleteFolder item_id)⟩)
    ∧ delete_item remote item_id = delete_item remote item_id "file"
    ∧ ∀ t, t ≠ "file" → t ≠ "folder" →
        delete_item remote item_id t
          = ([], ⟨400, .obj [("error", .str "Invalid item_type. Must be 'file' or 'folder'.")]⟩) := by
  refine ⟨rfl, rfl, rfl, ?_⟩
  intro t h1 h2
  simp [delete_item, h1, h2]

/-- Witness for C9: the invalid value `"bogus"` yields the 400 response and
no remote call. -/
theorem delete_item_dispatch_witness :
    delete_item (fun _ => Json.null) "42" "bogus"
      = ([], ⟨400, .obj [("error", .str "Invalid item_type. Must be 'file' or 'folder'.")]⟩) :=
  (delete_item_dispatch (fun _ => Json.null) "42").2.2.2 "bogus" (by decide) (by decide)

/-- Status directory holding a record that deserializes to the empty (falsy)
JSON object under the key of job `"j"`. -/
def falsyRecordDir : StatusDir :=
  fun p => if p = statusPath "j" then some (Json.obj []) else none

/-- Claim C10: a stored record that deserializes to an empty, falsy document
makes the status query endpoint answer 404 even though a record exists for
that job id: the not-found check tests the record's falsiness, not its
absence from the store. -/
theorem falsy_record_reported_not_found :
    read_status falsyRecordDir "j" = some (Json.obj [])
    ∧ get_upload_status falsyRecordDir "j" = notFoundResponse := by
  constructor
  · simp [read_status, falsyRecordDir]
  · simp [get_upload_status, read_status, falsyRecordDir, Json.truthy]

/-- Claim C2: on every exit path of the background worker — remote upload
succeeds, remote upload raises, or any status write raises — the staged
temporary file no longer exists once the worker finishes: the `finally`
block removes it unconditionally. -/
theorem worker_always_removes_tmp (env : WorkerEnv) (dir : StatusDir) (fs : TmpFs)
    (file_id tmp_path : String) :
    (upload_to_seedr_in_background env dir fs file_id tmp_path).fs tmp_path = false := by
  simp [upload_to_seedr_in_background]

/-- Claim C1 counterexample: when the worker's initial `processing` write
raises (e.g. the status disk is momentarily full) and the `failed` write in
the `except` handler succeeds, the write sequence for the job is the single
record `failed` — no `processing` record is ever stored, so the sequence
does skip `processing`. -/
theorem worker_trace_can_skip_processing :
    (upload_to_seedr_in_background ⟨.ok .null, false, true, true⟩ emptyDir emptyFs
        "j" "/tmp/j-f").trace = [failedRec]
    ∧ ¬ ∃ t, (upload_to_seedr_in_background ⟨.ok .null, false, true, true⟩ emptyDir emptyFs
        "j" "/tmp/j-f").trace = [processingRec, t] := by
  constructor
  · rfl
  · rintro ⟨t, h⟩
    have e : (upload_to_seedr_in_background ⟨.ok .null, false, true, true⟩ emptyDir emptyFs
        "j" "/tmp/j-f").trace = [failedRec] := rfl
    rw [e] at h
    simp [failedRec, processingRec] at h

/-- Claim C1 amended: provided the worker's `processing` write and its
`except`-handler `failed` write do not themselves raise (the `completed`
write may still raise), the sequence of status-store writes for the job is
exactly a `processing` record followed by exactly one terminal record. -/
theorem worker_trace_processing_then_terminal (u : Except String Json) (c : Bool)
    (dir : StatusDir) (fs : TmpFs) (file_id tmp_path : String) :
    ∃ t, (upload_to_seedr_in_background ⟨u, true, c, true⟩ dir fs file_id tmp_path).trace
        = [processingRec, t] ∧ isTerminalRec t := by
  rcases u with m | r
  · exact ⟨failedRec, rfl, Or.inl rfl⟩
  · cases c
    · exact ⟨failedRec, rfl, Or.inl rfl⟩
    · exact ⟨completedRec r, rfl, Or.inr ⟨r, rfl⟩⟩

/-- Claim C5: whenever the remote upload call raises, whatever the exception
text, the worker stores the failed record with the fixed generic error
string `"Upload process failed."`; the stored record is a constant
independent of the exception, so the exception's text never appears in it. -/
theorem upload_exception_writes_generic_error (msg : String) (c : Bool)
    (dir : StatusDir) (fs : TmpFs) (file_id tmp_path : String) :
    (upload_to_seedr_in_background ⟨.error msg, true, c, true⟩ dir fs file_id tmp_path).trace
      = [processingRec, failedRec]
    ∧ (upload_to_seedr_in_background ⟨.error msg, true, c, true⟩ dir fs
        file_id tmp_path).dir (statusPath file_id)
      = some (.obj [("status", .str "failed"), ("error", .str "Upload process failed.")]) := by
  constructor
  · rfl
  · simp [upload_to_seedr_in_background, write_status, failedRec]

/-- Claim C3: when staging the uploaded bytes to the temporary file raises,
the dispatcher creates no job record, schedules no background worker, and
the request fails synchronously (the exception propagates to the caller). -/
theorem staging_failure_creates_nothing (dir : StatusDir) (fs : TmpFs)
    (tasks : List (String × String)) (file_id filename : String) :
    (upload_file false dir fs tasks file_id filename).dir = dir
    ∧ (upload_file false dir fs tasks file_id filename).tasks = tasks
    ∧ (upload_file false dir fs tasks file_id filename).response = .error () :=
  ⟨rfl, rfl, rfl⟩

/-- Claim C4 counterexample: on a successful upload request the dispatcher's
actual event order is stage, then enqueue the worker, then write the
`pending` record — `background_tasks.add_task(...)` on line 94 of
`server.py` precedes `write_status(file_id, {"status": "pending"})` on
line 95, so the order "write pending, then enqueue" claimed for the
dispatcher does not hold. -/
theorem dispatch_enqueues_before_pending_write :
    (upload_file true emptyDir emptyFs [] "j" "f").events
      = [.staged "/tmp/j-f", .enqueued "j" "/tmp/j-f", .wrotePending "j"]
    ∧ (upload_file true emptyDir emptyFs [] "j" "f").events
      ≠ [.staged "/tmp/j-f", .wrotePending "j", .enqueued "j" "/tmp/j-f"] := by
  constructor
  · rfl
  · decide

/-- Claim C4 amended: on a successful upload request the dispatcher, before
responding, generates the job id, stages the bytes to the temp path derived
from the id and the filename hint, enqueues the background worker, and then
writes the `pending` job record; it responds 202 with the job id. -/
theorem dispatch_steps_in_order (dir : StatusDir) (fs : TmpFs)
    (tasks : List (String × String)) (file_id filename : String) :
    (upload_file true dir fs tasks file_id filename).events
      = [.staged (tmpPath file_id filename),
         .enqueued file_id (tmpPath file_id filename),
         .wrotePending file_id]
    ∧ (upload_file true dir fs tasks file_id filename).dir (statusPath file_id)
      = some pendingRec
    ∧ (upload_file true dir fs tasks file_id filename).tasks
      = tasks ++ [(file_id, tmpPath file_id filename)]
    ∧ (upload_file true dir fs tasks file_id filename).response
      = .ok ⟨202, .obj [("file_id", .str file_id)]⟩ := by
  refine ⟨rfl, ?_, rfl, rfl⟩
  simp [upload_file, write_status]

/-- Claim C6: the status query endpoint returns the persisted Job Record
(any record this system writes) verbatim with status 200 when one exists
for the id, and the explicit 404 not-found response when no record exists;
the underlying read is total — it equals the store lookup and yields the
explicit absent value `none` for a missing key rather than raising. -/
theorem status_query_returns_record_or_404 (dir : StatusDir) (file_id : String)
    (h : ∀ j, read_status dir file_id = some j → isJobRecord j) :
    read_status dir file_id = dir (statusPath file_id)
    ∧ (∀ j, read_status dir file_id = some j →
        get_upload_status dir file_id = ⟨200, j⟩)
    ∧ (read_status dir file_id = none →
        get_upload_status dir file_id = notFoundResponse) := by
  refine ⟨rfl, ?_, ?_⟩
  · intro j hj
    have ht : j.truthy = true := isJobRecord_truthy (h j hj)
    simp [get_upload_status, hj, ht]
  · intro hn
    simp [get_upload_status, hn]

/-- Witness for C6: with a `pending` record stored for job `"j"`, the
endpoint returns it verbatim with status 200. -/
theorem status_query_returns_record_or_404_witness :
    get_upload_status (write_status emptyDir "j" pendingRec) "j" = ⟨200, pendingRec⟩ := by
  have hr : read_status (write_status emptyDir "j" pendingRec) "j" = some pendingRec := by
    simp [read_status, write_status]
  have h : ∀ j, read_status (write_status emptyDir "j" pendingRec) "j" = some j →
      isJobRecord j := by
    intro j hj
    rw [hr] at hj
    exact Option.some.inj hj ▸ Or.inl rfl
  exact (status_query_returns_record_or_404 (write_status emptyDir "j" pendingRec) "j" h).2.1
    pendingRec hr

/-- A Job Record is well formed when its `result` field is present exactly
when its status is `completed` and its `error` field is present exactly
when its status is `failed`. -/
def recordWellFormed (j : Json) : Prop :=
  ((j.getField "result").isSome ↔ j.getField "status" = some (.str "completed"))
  ∧ ((j.getField "error").isSome ↔ j.getField "status" = some (.str "failed"))

/-- Helper: every record in the worker's write trace is the `processing`
record, a `completed` record, or the `failed` record. -/
theorem worker_trace_mem (env : WorkerEnv) (dir : StatusDir) (fs : TmpFs)
    (file_id tmp_path : String) :
    ∀ j ∈ (upload_to_seedr_in_background env dir fs file_id tmp_path).trace,
      j = processingRec ∨ (∃ r, j = completedRec r) ∨ j = failedRec := by
  intro j hj
  rcases env with ⟨u, wp, wc, wf⟩
  cases wp <;> cases wf <;> rcases u with m | r <;> cases wc <;>
    simp [upload_to_seedr_in_background] at hj <;> tauto

/-- Helper: each of the four record shapes the system writes is well
formed. -/
theorem isJobRecord_wellFormed {j : Json} (h : isJobRecord j) : recordWellFormed j := by
  rcases h with h | h | ⟨r, h⟩ | h <;> subst h <;>
    simp [recordWellFormed, pendingRec, processingRec, completedRec, failedRec,
      Json.getField, Json.getField.go]

/-- Claim C7: every Job Record written by any operation of the system — the
dispatcher's `pending` record or any record in a worker run's write trace —
has its `result` field present iff its status is `completed` and its
`error` field present iff its status is `failed`; `pending` and
`processing` records carry neither field. -/
theorem written_records_wellFormed (env : WorkerEnv) (dir : StatusDir) (fs : TmpFs)
    (file_id tmp_path : String) (j : Json)
    (h : j ∈ (upload_to_seedr_in_background env dir fs file_id tmp_path).trace
      ∨ j = pendingRec) :
    recordWellFormed j := by
  rcases h with h | h
  · rcases worker_trace_mem env dir fs file_id tmp_path j h with h | ⟨r, h⟩ | h <;>
      subst h
    · exact isJobRecord_wellFormed (Or.inr (Or.inl rfl))
    · exact isJobRecord_wellFormed (Or.inr (Or.inr (Or.inl ⟨r, rfl⟩)))
    · exact isJobRecord_wellFormed (Or.inr (Or.inr (Or.inr rfl)))
  · exact h ▸ isJobRecord_wellFormed (Or.inl rfl)

/-- Witness for C7: the `failed` record written by a worker run whose remote
upload raises is well formed. -/
theorem written_records_wellFormed_witness : recordWellFormed failedRec :=
  written_records_wellFormed ⟨.error "boom", true, true, true⟩ emptyDir emptyFs
    "j" "/tmp/j-f" failedRec (Or.inl (by simp [upload_to_seedr_in_background]))
